import Mathlib

/-!
Verification of the Peru Regional Telemetry data pipeline.

Shallow embedding of the pipeline in `src/utils.py` and `src/app.py`:
fetching (`fetch_data`), frame building (`transform_data`), metrics
(`display_metrics`), charting (`plot_data`) and the day filter of
`app.py`.  Numeric cell values are modelled as `ℚ`; a pandas NaN cell is
modelled as `none` in an `Option`-valued column.  Timestamps are
modelled abstractly as a calendar date plus a minute-of-day (the claims
only depend on the calendar date and on ordering, not on string
parsing).
-/

namespace Telemetry

/-- A parsed timestamp: pandas `Timestamp` reduced to what the program
inspects, its calendar date (`.dt.date`) and time of day. -/
structure Timestamp where
  date : Int
  minuteOfDay : Nat
deriving DecidableEq, Repr

/-- The hourly-series section of the provider JSON (`data_1h`): a dict of
column arrays.  Each of the five fields the program reads may be absent
from the dict (`none`).  All arrays present in a real payload have equal
length (pandas requires this when building the DataFrame); the claims
only exercise such payloads. -/
structure Data1h where
  time : Option (List Timestamp)
  temperature : Option (List ℚ)
  felttemperature : Option (List ℚ)
  precipitation : Option (List ℚ)
  convective_precipitation : Option (List ℚ)
deriving Repr

/-- The raw JSON response of the provider: the `data_1h` key may be
absent, and the body may carry an embedded `error_message`. -/
structure RawPayload where
  data_1h : Option Data1h
  error_message : Option String
deriving Repr

/-- Number of rows pandas gives the DataFrame: the common length of the
columns present in the dict (the first present one; all present columns
of a well-formed payload agree). -/
def Data1h.rowCount (h : Data1h) : Nat :=
  match h.time with
  | some l => l.length
  | none =>
    match h.temperature with
    | some l => l.length
    | none =>
      match h.felttemperature with
      | some l => l.length
      | none =>
        match h.precipitation with
        | some l => l.length
        | none =>
          match h.convective_precipitation with
          | some l => l.length
          | none => 0

/-- `pd.DataFrame(dict, columns=target)` on one target column: a column
present in the dict is taken as is; an absent one becomes a column of
NaN (`none`) of the row count. -/
def selectColumn (o : Option (List α)) (n : Nat) : List (Option α) :=
  match o with
  | some l => l.map some
  | none => List.replicate n none

/-- The values of indices `max(0, i-2) .. i` of `l`: the window that
`rolling(3, min_periods=1)` looks at for row `i`. -/
def window3 (l : List (Option ℚ)) (i : Nat) : List (Option ℚ) :=
  (l.take (i + 1)).drop (i - 2)

/-- `Series.rolling(3, min_periods=1).mean()`: for each row, the mean of
the non-NaN values of the trailing window of width 3, NaN when the
window holds no value. -/
def rollingMean3 (l : List (Option ℚ)) : List (Option ℚ) :=
  (List.range l.length).map fun i =>
    let vals := (window3 l i).filterMap id
    if vals.length = 0 then none else some (vals.sum / vals.length)

/-- The cleaned DataFrame built by `transform_data`: the five selected
columns plus the two smoothed columns. -/
structure ForecastFrame where
  time : List (Option Timestamp)
  temperature : List (Option ℚ)
  felttemperature : List (Option ℚ)
  precipitation : List (Option ℚ)
  convective_precipitation : List (Option ℚ)
  smooth_temperature : List (Option ℚ)
  smooth_felttemperature : List (Option ℚ)
deriving Repr

/-- `transform_data` (src/utils.py:113-146).  `data["data_1h"]` raises
`KeyError` when the key is absent (modelled as `Except.error`);
otherwise the DataFrame is built over the five target columns (absent
ones become NaN columns), `time` is parsed (modelled as identity on the
abstract timestamps, NaN staying NaT), and the two smoothed columns are
added by `rolling(3, min_periods=1).mean()`. -/
def transform_data (data : RawPayload) : Except String ForecastFrame :=
  match data.data_1h with
  | none => Except.error "KeyError: data_1h"
  | some data_1h =>
    let n := data_1h.rowCount
    let temperature := selectColumn data_1h.temperature n
    let felttemperature := selectColumn data_1h.felttemperature n
    Except.ok
      { time := selectColumn data_1h.time n
        temperature := temperature
        felttemperature := felttemperature
        precipitation := selectColumn data_1h.precipitation n
        convective_precipitation := selectColumn data_1h.convective_precipitation n
        smooth_temperature := rollingMean3 temperature
        smooth_felttemperature := rollingMean3 felttemperature }

/-- Whether a call of `transform_data` raised. -/
def isError (e : Except String ForecastFrame) : Bool :=
  match e with
  | Except.error _ => true
  | Except.ok _ => false

/-! ## Forecast client (`fetch_data`, src/utils.py:31-109) -/

/-- Shape of a body that `response.json()` parses successfully.  A
JSON object is the payload dict.  Valid JSON that is not iterable —
`null`, a number, a boolean — makes the later membership check
`"error_message" in data` (src/utils.py:101) raise an uncaught
`TypeError`.  An iterable non-dict body — a string or an array —
passes the membership check (substring or element membership),
recorded here as whether it holds the error key, and when it does, the
indexing `data["error_message"]` in the diagnostic f-string raises an
uncaught `TypeError`. -/
inductive ParsedBody where
  | object (payload : RawPayload)
  | scalar
  | iterable (hasErrorKey : Bool)
deriving Repr

/-- Outcome of `requests.get` + `raise_for_status` + `response.json()`,
the three operations of `fetch_data` that can raise: an HTTP error
status (`raise_for_status` raises `HTTPError`, only for statuses of
400 and above), a `ConnectionError`, another `RequestException`, or a
delivered body, which either fails JSON decoding or parses to some
JSON value. -/
inductive NetOutcome where
  | httpError (status : Nat)
  | connectionError
  | requestException
  | undecodableBody
  | parsedBody (body : ParsedBody)
deriving Repr

/-- The classified failure kinds of the fetch pipeline: one per
`st.error` diagnostic emitted by `fetch_data`. -/
inductive FailureKind where
  | ConfigurationError
  | AuthorizationError
  | QuotaExceededError
  | ProviderUnavailableError
  | RequestError
  | ConnectivityError
  | DecodeError
  | ProviderBusinessError
deriving DecidableEq, Repr

/-- Observable result of one `fetch_data` call: the returned value
(`some` body or `None`), the diagnostic emitted via `st.error`,
whether `requests.get` was ever executed, and whether an exception
escaped the function (then no value is returned and no diagnostic is
shown; the default is used by the branches that return normally). -/
structure FetchResult where
  payload : Option ParsedBody
  failure : Option FailureKind
  networkCalled : Bool
  uncaughtTypeError : Bool := false
deriving Repr

/-- `fetch_data` (src/utils.py:31-109).  The API key is checked first
(the Python check `not API_KEY`, i.e. the empty string, modelling an unset
secret) and short-circuits before the request; an `HTTPError` is
classified by status code (403, 429, ≥ 500, otherwise generic); a
`ConnectionError` and any other `RequestException` get their own
diagnostics; a body that fails JSON decoding is a data error; a parsed
dict carrying `error_message` is a provider business error returning
`None`; a parsed non-iterable scalar raises `TypeError` at the
membership check, as does an iterable non-dict holding the error key
at the indexing in the f-string (both exceptions escape: only
`JSONDecodeError` is caught there); an iterable non-dict without the
error key is returned as the value. -/
def fetch_data (apiKey : String) (net : NetOutcome) : FetchResult :=
  if apiKey = "" then
    { payload := none, failure := some FailureKind.ConfigurationError, networkCalled := false }
  else
    match net with
    | NetOutcome.httpError status =>
      let kind :=
        if status = 403 then FailureKind.AuthorizationError
        else if status = 429 then FailureKind.QuotaExceededError
        else if 500 ≤ status then FailureKind.ProviderUnavailableError
        else FailureKind.RequestError
      { payload := none, failure := some kind, networkCalled := true }
    | NetOutcome.connectionError =>
      { payload := none, failure := some FailureKind.ConnectivityError, networkCalled := true }
    | NetOutcome.requestException =>
      { payload := none, failure := some FailureKind.RequestError, networkCalled := true }
    | NetOutcome.undecodableBody =>
      { payload := none, failure := some FailureKind.DecodeError, networkCalled := true }
    | NetOutcome.parsedBody ParsedBody.scalar =>
      { payload := none, failure := none, networkCalled := true, uncaughtTypeError := true }
    | NetOutcome.parsedBody (ParsedBody.iterable true) =>
      { payload := none, failure := none, networkCalled := true, uncaughtTypeError := true }
    | NetOutcome.parsedBody (ParsedBody.iterable false) =>
      { payload := some (ParsedBody.iterable false), failure := none, networkCalled := true }
    | NetOutcome.parsedBody (ParsedBody.object data) =>
      match data.error_message with
      | some _ =>
        { payload := none, failure := some FailureKind.ProviderBusinessError, networkCalled := true }
      | none =>
        { payload := some (ParsedBody.object data), failure := none, networkCalled := true }

/-! ## Memoization of `fetch_data` (`@st.cache_data(ttl="1d")`, src/utils.py:30)

The cache itself lives in the Streamlit library, not in this
repository; it is modelled from the spec below. -/

/-- One memoized entry: the payload returned for a coordinate pair and
the time (in seconds) it was fetched. -/
structure CacheEntry where
  payload : RawPayload
  fetchedAt : Nat
deriving Repr

/-- The validity window of `ttl="1d"`, in seconds. -/
def ttlSeconds : Nat := 86400

/-- The memoization table: coordinate pair to cached entry. -/
def Cache : Type := List ((ℚ × ℚ) × CacheEntry)

/-- Lookup of the entry cached for a coordinate pair. -/
def cacheLookup (cache : Cache) (key : ℚ × ℚ) : Option CacheEntry :=
  (cache.find? fun e => e.1 = key).map (·.2)

/-- Result of one memoized call: the payload handed to the caller, the
cache afterwards, and whether the underlying function ran (a network
request was issued). -/
structure CachedStep where
  payload : RawPayload
  cache : Cache
  networkCalled : Bool

/-- Modelled from the spec: the `@st.cache_data(ttl="1d")` decorator on
`fetch_data` is Streamlit library code absent from src/; per the spec,
successful calls are memoized keyed by `(lat, lon)` with a 24-hour
validity window and expiry is a time-to-live check on read.  `net` is
the underlying fetch, indexed by call time. -/
def cachedFetch (net : Nat → ℚ × ℚ → RawPayload) (cache : Cache) (now : Nat)
    (key : ℚ × ℚ) : CachedStep :=
  match cacheLookup cache key with
  | some entry =>
    if now < entry.fetchedAt + ttlSeconds then
      { payload := entry.payload, cache := cache, networkCalled := false }
    else
      let p := net now key
      { payload := p
        cache := (key, { payload := p, fetchedAt := now }) :: cache.filter fun e => ¬ e.1 = key
        networkCalled := true }
  | none =>
    let p := net now key
    { payload := p
      cache := (key, { payload := p, fetchedAt := now }) :: cache.filter fun e => ¬ e.1 = key
      networkCalled := true }

/-! ## Metrics (`display_metrics`, src/utils.py:225-244) -/

/-- `Series.max()` of pandas: NaN cells are skipped (`skipna=True`
default); the maximum over an empty or all-NaN column is NaN
(`none`). -/
def seriesMax (col : List (Option ℚ)) : Option ℚ :=
  (col.filterMap id).max?

/-- `Series.min()` of pandas, NaN cells skipped, NaN when no value. -/
def seriesMin (col : List (Option ℚ)) : Option ℚ :=
  (col.filterMap id).min?

/-- The two metric values `display_metrics` renders for a column. -/
structure MetricsOut where
  maxVal : Option ℚ
  minVal : Option ℚ
deriving DecidableEq, Repr

/-- `display_metrics` (src/utils.py:225-244): computes
`df[column_name].max()` and `df[column_name].min()` and renders both
as `st.metric` values.  There is no error path: on an empty column both
aggregates are NaN and the function still renders (Python formats NaN
as the string "nan"). -/
def display_metrics (col : List (Option ℚ)) : MetricsOut :=
  { maxVal := seriesMax col, minVal := seriesMin col }

/-- The emptiness guard of the rendering callers
(src/views.py:62-64 and 102-104): `render_overview_content` and
`render_detail_content` check `df.empty` and render the "No data
available." warning instead of calling `display_metrics`. -/
def renderContentGuard (rowCount : Nat) : Bool :=
  rowCount = 0

/-! ## Day filter (src/app.py:81) -/

/-- Row selection by boolean mask, `df[mask]`: keeps in order exactly
the rows whose mask entry is `true`. -/
def maskSelect (mask : List Bool) (rows : List α) : List α :=
  ((mask.zip rows).filter fun p => p.1).map fun p => p.2

/-- `time.dt.date == selected_date` on one cell: NaT (`none`) compares
unequal to every date. -/
def timeDateEq (t : Option Timestamp) (d : Int) : Bool :=
  match t with
  | some ts => ts.date = d
  | none => false

/-- The day filter of src/app.py line 81, selecting the rows of `df`
whose `time` has the chosen calendar date
(src/app.py:81): the boolean mask is computed from the `time` column
and the same mask selects the rows of every column. -/
def filterFrameByDate (f : ForecastFrame) (d : Int) : ForecastFrame :=
  let mask := f.time.map fun t => timeDateEq t d
  { time := maskSelect mask f.time
    temperature := maskSelect mask f.temperature
    felttemperature := maskSelect mask f.felttemperature
    precipitation := maskSelect mask f.precipitation
    convective_precipitation := maskSelect mask f.convective_precipitation
    smooth_temperature := maskSelect mask f.smooth_temperature
    smooth_felttemperature := maskSelect mask f.smooth_felttemperature }

/-! ## Charting (`plot_data`, src/utils.py:149-202)

A DataFrame handed to `plot_data` is modelled as its column mapping:
column name to list of cell values.  Cell values of both the time axis
and the numeric series are modelled as `ℚ` (the chart treats them as
opaque plot coordinates). -/

/-- One plotted series: its x data, y data and legend label
(`label=df[y_col].name`, i.e. the column name). -/
structure PlotSeries where
  xdata : List ℚ
  ydata : List ℚ
  label : String
deriving DecidableEq, Repr

/-- The figure `plot_data` returns: the line series drawn by `ax.plot`,
the bar series drawn by `ax.bar`, and the axis configuration. -/
structure FigureOut where
  lineSeries : List PlotSeries
  barSeries : List PlotSeries
  xLabel : String
  yLabel : String
  dateFormat : String
deriving DecidableEq, Repr

/-- `plot_data` (src/utils.py:149-202).  A bare string `y_cols` is
normalized to the one-element list first (src/utils.py:173-174).  For
`graph_type == "line"` every y column is plotted against `df[x_col]`
with the column name as label; for `graph_type == "bar"` only
`y_cols[0]` is plotted (Python would raise `IndexError` on an empty
list there; the claims only exercise non-empty lists). -/
def plot_data (df : String → List ℚ) (x_col : String) (y_cols : String ⊕ List String)
    (x_label y_label : String) (graph_type : String) (date_format : String) : FigureOut :=
  let ycols :=
    match y_cols with
    | Sum.inl s => [s]
    | Sum.inr l => l
  { lineSeries :=
      if graph_type = "line" then
        ycols.map fun c => { xdata := df x_col, ydata := df c, label := c }
      else []
    barSeries :=
      if graph_type = "bar" then
        (ycols.take 1).map fun c => { xdata := df x_col, ydata := df c, label := c }
      else []
    xLabel := x_label
    yLabel := y_label
    dateFormat := date_format }

/-! ## Concrete inputs used by witnesses and counterexamples -/

/-- A well-formed hourly dict lacking only the `precipitation` field. -/
def d1hMissingPrecip : Data1h :=
  { time := some [⟨20000, 0⟩, ⟨20000, 60⟩]
    temperature := some [10, 12]
    felttemperature := some [9, 11]
    precipitation := none
    convective_precipitation := some [0, 0] }

/-- A raw payload whose hourly dict lacks the `precipitation` field. -/
def pMissingPrecip : RawPayload :=
  { data_1h := some d1hMissingPrecip, error_message := none }

/-- A complete three-row hourly dict. -/
def d1hSmall : Data1h :=
  { time := some [⟨20000, 0⟩, ⟨20000, 60⟩, ⟨20000, 120⟩]
    temperature := some [1, 2, 4]
    felttemperature := some [3, 5, 9]
    precipitation := some [0, 0, 0]
    convective_precipitation := some [0, 0, 0] }

/-- A complete three-row payload. -/
def pSmall : RawPayload :=
  { data_1h := some d1hSmall, error_message := none }

/-- A parsed payload that carries an embedded provider error message. -/
def pProviderError : RawPayload :=
  { data_1h := none, error_message := some "invalid api key" }

/-- A constant column mapping for chart witnesses. -/
def dfConst : String → List ℚ := fun _ => [1, 2]

/-- A constant underlying fetch for cache witnesses. -/
def netW : Nat → ℚ × ℚ → RawPayload :=
  fun _ _ => { data_1h := none, error_message := none }

/-! ## Helper lemmas on the rolling mean -/

theorem window3_map_some (l : List ℚ) (i : Nat) :
    (window3 (l.map some) i).filterMap id = (l.take (i + 1)).drop (i - 2) := by
  rw [window3, ← List.map_take, ← List.map_drop, List.filterMap_map]
  simp

theorem rollingMean3_getElem (l : List (Option ℚ)) (j : Nat) (hj : j < l.length) :
    (rollingMean3 l)[j]? =
      some (
        let vals := (window3 l j).filterMap id
        if vals.length = 0 then none else some (vals.sum / vals.length)) := by
  simp [rollingMean3, List.getElem?_map, List.getElem?_range, hj]

theorem take_drop_triple (i : Nat) (l : List ℚ) (x y z : ℚ)
    (h0 : l[i]? = some x) (h1 : l[i+1]? = some y) (h2 : l[i+2]? = some z) :
    (l.take (i + 3)).drop i = [x, y, z] := by
  induction i generalizing l with
  | zero =>
    match l, h0, h1, h2 with
    | a :: b :: c :: t, h0, h1, h2 =>
      simp_all
  | succ n ih =>
    match l with
    | [] => simp at h0
    | a :: t =>
      simp only [List.getElem?_cons_succ] at h0 h1 h2
      have := ih t h0 h1 h2
      simpa [List.take_succ_cons, List.drop_succ_cons] using this

theorem rollingMean3_map_zero (l : List ℚ) (x : ℚ) (h0 : l[0]? = some x) :
    (rollingMean3 (l.map some))[0]? = some (some x) := by
  have hlt : 0 < l.length := by
    cases l with
    | nil => simp at h0
    | cons a t => simp
  have hlen : 0 < (l.map some).length := by simpa using hlt
  rw [rollingMean3_getElem _ _ hlen, window3_map_some]
  match l, h0 with
  | a :: t, h0 =>
    simp at h0
    simp [h0]

theorem rollingMean3_map_one (l : List ℚ) (x y : ℚ)
    (h0 : l[0]? = some x) (h1 : l[1]? = some y) :
    (rollingMean3 (l.map some))[1]? = some (some ((x + y) / 2)) := by
  have hlt : 1 < l.length := by
    match l, h1 with
    | a :: b :: t, _ => simp
  have hlen : 1 < (l.map some).length := by simpa using hlt
  rw [rollingMean3_getElem _ _ hlen, window3_map_some]
  match l, h0, h1 with
  | a :: b :: t, h0, h1 =>
    simp at h0 h1
    subst h0; subst h1
    norm_num [List.take_succ_cons]

theorem rollingMean3_map_two (l : List ℚ) (i : Nat) (x y z : ℚ)
    (h0 : l[i]? = some x) (h1 : l[i+1]? = some y) (h2 : l[i+2]? = some z) :
    (rollingMean3 (l.map some))[i+2]? = some (some ((x + y + z) / 3)) := by
  have hlt : i + 2 < l.length := by
    rcases List.getElem?_eq_some_iff.mp h2 with ⟨hh, -⟩
    exact hh
  have hlen : i + 2 < (l.map some).length := by simpa using hlt
  rw [rollingMean3_getElem _ _ hlen, window3_map_some]
  have hw : (l.take (i + 2 + 1)).drop (i + 2 - 2) = [x, y, z] := by
    have heq : i + 2 - 2 = i := by omega
    rw [heq, show i + 2 + 1 = i + 3 from rfl]
    exact take_drop_triple i l x y z h0 h1 h2
  rw [hw]
  norm_num
  ring

theorem transform_data_smooth_columns (p : RawPayload) (h : Data1h) (ts fs : List ℚ)
    (f : ForecastFrame) (hp : p.data_1h = some h) (ht : h.temperature = some ts)
    (hf : h.felttemperature = some fs) (hok : transform_data p = Except.ok f) :
    f.smooth_temperature = rollingMean3 (ts.map some) ∧
    f.smooth_felttemperature = rollingMean3 (fs.map some) := by
  rw [transform_data, hp] at hok
  simp only [ht, hf, selectColumn] at hok
  cases hok
  exact ⟨rfl, rfl⟩

/-! ## Claim C1 -/

/-- C1 counterexample: a raw payload whose hourly dict lacks the
required field `precipitation` does not make `transform_data` fail — a
frame is produced (its `precipitation` column is all NaN), refuting
that every payload missing one of the five required fields fails with
a schema error. -/
theorem transform_data_missing_field_no_failure :
    isError (transform_data pMissingPrecip) = false := by decide

/-- C1 (amended): `transform_data` fails exactly when the
hourly-series key `data_1h` is absent (a `KeyError`, producing no
frame); when `data_1h` is present, a frame is always produced, a
missing required field silently becoming an all-NaN column. -/
theorem transform_data_error_iff (p : RawPayload) :
    (isError (transform_data p) = true ↔ p.data_1h = none) ∧
    (∀ h, p.data_1h = some h →
      ∃ f, transform_data p = Except.ok f ∧
        (h.time = none → f.time = List.replicate h.rowCount none) ∧
        (h.temperature = none → f.temperature = List.replicate h.rowCount none) ∧
        (h.felttemperature = none → f.felttemperature = List.replicate h.rowCount none) ∧
        (h.precipitation = none → f.precipitation = List.replicate h.rowCount none) ∧
        (h.convective_precipitation = none →
          f.convective_precipitation = List.replicate h.rowCount none)) := by
  constructor
  · cases hp : p.data_1h with
    | none => simp [transform_data, isError, hp]
    | some h => simp [transform_data, isError, hp]
  · intro h hp
    refine ⟨_, by rw [transform_data, hp], ?_, ?_, ?_, ?_, ?_⟩ <;>
      · intro he
        simp [selectColumn, he]

/-- C1 witness: on the payload lacking `precipitation`, the amended
theorem yields a frame whose `precipitation` column is two NaN
cells. -/
theorem transform_data_error_iff_witness :
    ∃ f, transform_data pMissingPrecip = Except.ok f ∧
      f.precipitation = List.replicate 2 none := by
  obtain ⟨f, hf, -, -, -, hprec, -⟩ :=
    (transform_data_error_iff pMissingPrecip).2 d1hMissingPrecip rfl
  exact ⟨f, hf, hprec rfl⟩

/-! ## Claim C2 -/

/-- C2: in every frame produced by `transform_data`, the smoothed
columns are the trailing mean of window 3 with minimum window 1:
row 0 equals the source value, row 1 the mean of the first two source
values, and every row `i + 2` the mean of the source values at rows
`i`, `i + 1`, `i + 2`; both for `temperature` into
`smooth_temperature` and for `felttemperature` into
`smooth_felttemperature`. -/
theorem transform_data_smoothing (p : RawPayload) (h : Data1h) (ts fs : List ℚ)
    (f : ForecastFrame) (hp : p.data_1h = some h) (ht : h.temperature = some ts)
    (hf : h.felttemperature = some fs) (hok : transform_data p = Except.ok f) :
    (∀ x, ts[0]? = some x → f.smooth_temperature[0]? = some (some x)) ∧
    (∀ x y, ts[0]? = some x → ts[1]? = some y →
      f.smooth_temperature[1]? = some (some ((x + y) / 2))) ∧
    (∀ i x y z, ts[i]? = some x → ts[i+1]? = some y → ts[i+2]? = some z →
      f.smooth_temperature[i+2]? = some (some ((x + y + z) / 3))) ∧
    (∀ x, fs[0]? = some x → f.smooth_felttemperature[0]? = some (some x)) ∧
    (∀ x y, fs[0]? = some x → fs[1]? = some y →
      f.smooth_felttemperature[1]? = some (some ((x + y) / 2))) ∧
    (∀ i x y z, fs[i]? = some x → fs[i+1]? = some y → fs[i+2]? = some z →
      f.smooth_felttemperature[i+2]? = some (some ((x + y + z) / 3))) := by
  obtain ⟨e1, e2⟩ := transform_data_smooth_columns p h ts fs f hp ht hf hok
  rw [e1, e2]
  exact ⟨fun x hx => rollingMean3_map_zero ts x hx,
    fun x y hx hy => rollingMean3_map_one ts x y hx hy,
    fun i x y z hx hy hz => rollingMean3_map_two ts i x y z hx hy hz,
    fun x hx => rollingMean3_map_zero fs x hx,
    fun x y hx hy => rollingMean3_map_one fs x y hx hy,
    fun i x y z hx hy hz => rollingMean3_map_two fs i x y z hx hy hz⟩

/-- C2 witness: on the concrete three-row payload with temperatures
`[1, 2, 4]` and felt temperatures `[3, 5, 9]`, the smoothed cells are
`1`, `(1+2)/2` and `(1+2+4)/3`, and `(3+5)/2` for the felt series. -/
theorem transform_data_smoothing_witness :
    ∃ f, transform_data pSmall = Except.ok f ∧
      f.smooth_temperature[0]? = some (some 1) ∧
      f.smooth_temperature[1]? = some (some ((1 + 2) / 2)) ∧
      f.smooth_temperature[2]? = some (some ((1 + 2 + 4) / 3)) ∧
      f.smooth_felttemperature[1]? = some (some ((3 + 5) / 2)) := by
  obtain ⟨f, hf⟩ : ∃ f, transform_data pSmall = Except.ok f := ⟨_, rfl⟩
  have hs := transform_data_smoothing pSmall d1hSmall [1, 2, 4] [3, 5, 9] f rfl rfl rfl hf
  exact ⟨f, hf, hs.1 1 rfl, hs.2.1 1 2 rfl rfl, hs.2.2.1 0 1 2 4 rfl rfl rfl,
    hs.2.2.2.2.1 3 5 rfl rfl⟩

/-! ## Claim C3 -/

/-- C3: with a configured key, `fetch_data` classifies each
transport/HTTP outcome: HTTP 403 as an authorization error, HTTP 429
as quota exceeded, HTTP 5xx as provider unavailable, every other HTTP
error status as a generic request error, a request that never reached
the provider as a connectivity error, an other request exception as a
generic request error, an unparseable body as a decode error, and a
parsed body carrying an embedded `error_message` as a provider
business error; and whenever a failure is diagnosed, no payload is
returned. -/
theorem fetch_data_classification (k : String) (hk : ¬ k = "") (s : Nat) :
    (fetch_data k (NetOutcome.httpError 403)).failure
      = some FailureKind.AuthorizationError ∧
    (fetch_data k (NetOutcome.httpError 429)).failure
      = some FailureKind.QuotaExceededError ∧
    (500 ≤ s → (fetch_data k (NetOutcome.httpError s)).failure
      = some FailureKind.ProviderUnavailableError) ∧
    (¬ s = 403 → ¬ s = 429 → s < 500 → (fetch_data k (NetOutcome.httpError s)).failure
      = some FailureKind.RequestError) ∧
    (fetch_data k NetOutcome.connectionError).failure
      = some FailureKind.ConnectivityError ∧
    (fetch_data k NetOutcome.requestException).failure
      = some FailureKind.RequestError ∧
    (fetch_data k NetOutcome.undecodableBody).failure
      = some FailureKind.DecodeError ∧
    (∀ p m, p.error_message = some m →
      (fetch_data k (NetOutcome.parsedBody (ParsedBody.object p))).failure
        = some FailureKind.ProviderBusinessError) ∧
    (∀ net, (fetch_data k net).failure.isSome = true →
      (fetch_data k net).payload = none) := by
  refine ⟨?_, ?_, ?_, ?_, ?_, ?_, ?_, ?_, ?_⟩
  · simp [fetch_data, hk]
  · simp [fetch_data, hk]
  · intro hs
    have h403 : ¬ s = 403 := by omega
    have h429 : ¬ s = 429 := by omega
    simp [fetch_data, hk, h403, h429, hs]
  · intro h403 h429 hlt
    have hs : ¬ 500 ≤ s := by omega
    simp [fetch_data, hk, h403, h429, hs]
  · simp [fetch_data, hk]
  · simp [fetch_data, hk]
  · simp [fetch_data, hk]
  · intro p m hm
    simp [fetch_data, hk, hm]
  · intro net
    cases net with
    | httpError s => simp [fetch_data, hk]
    | connectionError => simp [fetch_data, hk]
    | requestException => simp [fetch_data, hk]
    | undecodableBody => simp [fetch_data, hk]
    | parsedBody b =>
      cases b with
      | object p =>
        cases hm : p.error_message with
        | none => simp [fetch_data, hk, hm]
        | some m => simp [fetch_data, hk, hm]
      | scalar => simp [fetch_data, hk]
      | iterable hkey => cases hkey <;> simp [fetch_data, hk]

/-- C3 witness: with key "k", status 503 is classified as provider
unavailable, status 404 as a generic request error, and the payload
with an embedded error message yields a provider business error with
no payload returned. -/
theorem fetch_data_classification_witness :
    (fetch_data "k" (NetOutcome.httpError 503)).failure
      = some FailureKind.ProviderUnavailableError ∧
    (fetch_data "k" (NetOutcome.httpError 404)).failure
      = some FailureKind.RequestError ∧
    (fetch_data "k" (NetOutcome.parsedBody (ParsedBody.object pProviderError))).failure
      = some FailureKind.ProviderBusinessError ∧
    (fetch_data "k" (NetOutcome.parsedBody (ParsedBody.object pProviderError))).payload
      = none := by
  refine ⟨(fetch_data_classification "k" (by decide) 503).2.2.1 (by decide),
    (fetch_data_classification "k" (by decide) 404).2.2.2.1
      (by decide) (by decide) (by decide),
    (fetch_data_classification "k" (by decide) 0).2.2.2.2.2.2.2.1
      pProviderError "invalid api key" rfl,
    (fetch_data_classification "k" (by decide) 0).2.2.2.2.2.2.2.2
      (NetOutcome.parsedBody (ParsedBody.object pProviderError)) (by decide)⟩

/-! ## Claim C7 -/

/-- C7: with the API key unset (falsy under the Python check, the
empty secret), `fetch_data` short-circuits to the configuration error
before any network call: no request is issued, no payload returned,
whatever the network would have answered. -/
theorem fetch_data_missing_key (net : NetOutcome) :
    fetch_data "" net =
      { payload := none
        failure := some FailureKind.ConfigurationError
        networkCalled := false } := by
  simp [fetch_data]

/-! ## Claim C9 -/

/-- C9 counterexample: with a configured key and a body that parses to
valid JSON `null` (or a number or a boolean), the membership check
`"error_message" in data` at src/utils.py:101 sits outside every
except clause that could catch a `TypeError` (only `JSONDecodeError`
is caught), so the exception escapes `fetch_data`: no value is
returned and no diagnostic is shown — refuting that `fetch_data`
never propagates an exception to its caller. -/
theorem fetch_data_scalar_body_raises :
    fetch_data "k" (NetOutcome.parsedBody ParsedBody.scalar) =
      { payload := none, failure := none, networkCalled := true,
        uncaughtTypeError := true } := rfl

/-- C9 (amended): `fetch_data` propagates an uncaught `TypeError` for
exactly the inputs where the key is configured and the parsed body
breaks the embedded-error check — a non-iterable scalar body at the
membership test, or an iterable non-dict body holding the error key at
the indexing; on every other input no exception escapes and the call
either returns `None` having emitted a diagnostic, or returns the body
with no diagnostic, so the caller distinguishes only a successful
value from `None`. -/
theorem fetch_data_exception_iff (k : String) (net : NetOutcome) :
    ((fetch_data k net).uncaughtTypeError = true ↔
      (¬ k = "" ∧ (net = NetOutcome.parsedBody ParsedBody.scalar ∨
        net = NetOutcome.parsedBody (ParsedBody.iterable true)))) ∧
    ((fetch_data k net).uncaughtTypeError = false →
      ((fetch_data k net).payload = none ∧ (fetch_data k net).failure.isSome = true) ∨
      (∃ b, (fetch_data k net).payload = some b ∧ (fetch_data k net).failure = none)) := by
  by_cases hk : k = ""
  · subst hk
    constructor
    · simp [fetch_data]
    · intro hok
      left
      simp [fetch_data]
  · cases net with
    | httpError s =>
      exact ⟨by simp [fetch_data, hk], fun hok => Or.inl (by simp [fetch_data, hk])⟩
    | connectionError =>
      exact ⟨by simp [fetch_data, hk], fun hok => Or.inl (by simp [fetch_data, hk])⟩
    | requestException =>
      exact ⟨by simp [fetch_data, hk], fun hok => Or.inl (by simp [fetch_data, hk])⟩
    | undecodableBody =>
      exact ⟨by simp [fetch_data, hk], fun hok => Or.inl (by simp [fetch_data, hk])⟩
    | parsedBody b =>
      cases b with
      | object p =>
        cases hm : p.error_message with
        | none =>
          exact ⟨by simp [fetch_data, hk, hm],
            fun hok => Or.inr ⟨ParsedBody.object p, by simp [fetch_data, hk, hm]⟩⟩
        | some m =>
          exact ⟨by simp [fetch_data, hk, hm],
            fun hok => Or.inl (by simp [fetch_data, hk, hm])⟩
      | scalar =>
        constructor
        · simp [fetch_data, hk]
        · intro hok
          rw [fetch_data] at hok
          simp [hk] at hok
      | iterable hkey =>
        cases hkey with
        | true =>
          constructor
          · simp [fetch_data, hk]
          · intro hok
            rw [fetch_data] at hok
            simp [hk] at hok
        | false =>
          exact ⟨by simp [fetch_data, hk],
            fun hok => Or.inr ⟨ParsedBody.iterable false, by simp [fetch_data, hk]⟩⟩

/-- C9 witness: with key "k" and a connection failure, no exception
escapes and the call returns `None` with a diagnostic emitted. -/
theorem fetch_data_exception_iff_witness :
    ((fetch_data "k" NetOutcome.connectionError).payload = none ∧
      (fetch_data "k" NetOutcome.connectionError).failure.isSome = true) ∨
    (∃ b, (fetch_data "k" NetOutcome.connectionError).payload = some b ∧
      (fetch_data "k" NetOutcome.connectionError).failure = none) :=
  (fetch_data_exception_iff "k" NetOutcome.connectionError).2 (by decide)

/-! ## Claim C4 -/

/-- C4: starting from a cache holding no entry for the coordinate
pair, the first call fetches over the network; a second call with
identical coordinates within the 24-hour validity window returns the
identical payload and performs no network request; a call at or after
expiry of the window issues a new network request. -/
theorem cachedFetch_ttl (net : Nat → ℚ × ℚ → RawPayload) (c0 : Cache) (key : ℚ × ℚ)
    (t0 t1 t2 : Nat) (hmiss : cacheLookup c0 key = none)
    (h1 : t1 < t0 + ttlSeconds) (h2 : t0 + ttlSeconds ≤ t2) :
    (cachedFetch net c0 t0 key).networkCalled = true ∧
    (cachedFetch net (cachedFetch net c0 t0 key).cache t1 key).payload
      = (cachedFetch net c0 t0 key).payload ∧
    (cachedFetch net (cachedFetch net c0 t0 key).cache t1 key).networkCalled = false ∧
    (cachedFetch net (cachedFetch net c0 t0 key).cache t2 key).networkCalled = true := by
  have hstep : cachedFetch net c0 t0 key =
      { payload := net t0 key
        cache := (key, { payload := net t0 key, fetchedAt := t0 }) ::
          c0.filter fun e => ¬ e.1 = key
        networkCalled := true } := by
    rw [cachedFetch, hmiss]
  have hlook : cacheLookup ((key, { payload := net t0 key, fetchedAt := t0 }) ::
      c0.filter fun e => ¬ e.1 = key) key
      = some { payload := net t0 key, fetchedAt := t0 } := by
    simp [cacheLookup, List.find?_cons]
  refine ⟨by rw [hstep], ?_, ?_, ?_⟩
  · rw [hstep]
    rw [cachedFetch, hlook]
    simp [h1]
  · rw [hstep]
    rw [cachedFetch, hlook]
    simp [h1]
  · rw [hstep]
    rw [cachedFetch, hlook]
    have hexp : ¬ t2 < t0 + ttlSeconds := by omega
    simp [hexp]

/-- C4 witness: from the empty cache at time 0, the call fetches; the
call one hour later returns the same payload without fetching; the
call exactly 24 hours later fetches again. -/
theorem cachedFetch_ttl_witness :
    (cachedFetch netW ([] : Cache) 0 (1, 2)).networkCalled = true ∧
    (cachedFetch netW (cachedFetch netW ([] : Cache) 0 (1, 2)).cache 3600 (1, 2)).payload
      = (cachedFetch netW ([] : Cache) 0 (1, 2)).payload ∧
    (cachedFetch netW (cachedFetch netW ([] : Cache) 0 (1, 2)).cache 3600
      (1, 2)).networkCalled = false ∧
    (cachedFetch netW (cachedFetch netW ([] : Cache) 0 (1, 2)).cache 86400
      (1, 2)).networkCalled = true :=
  cachedFetch_ttl netW [] (1, 2) 0 3600 86400 rfl (by decide) (by decide)

/-! ## Claim C5 -/

/-- C5 counterexample: `display_metrics` applied to a frame with zero
records signals no error at all — both pandas aggregates are NaN and
the function renders them (Python formats NaN as the string "nan");
there is no `EmptyFrameError` anywhere in the code. -/
theorem display_metrics_empty_no_error :
    display_metrics [] = { maxVal := none, minVal := none } := rfl

/-- C5 (amended): `display_metrics` itself performs no emptiness
check: on a column of a zero-record frame it renders NaN metrics; the
"no data" signalling lives in the rendering callers, which guard on
`df.empty`.  On any column holding at least one value, the rendered
max is at least the rendered min and both are values present in the
column. -/
theorem display_metrics_max_min (col : List (Option ℚ)) (h : ¬ col.filterMap id = []) :
    ∃ M m, display_metrics col = { maxVal := some M, minVal := some m } ∧
      m ≤ M ∧ some M ∈ col ∧ some m ∈ col := by
  have hmax : ∃ M, (col.filterMap id).max? = some M := by
    cases hM : (col.filterMap id).max? with
    | none => exact absurd (List.max?_eq_none_iff.mp hM) h
    | some M => exact ⟨M, rfl⟩
  have hmin : ∃ m, (col.filterMap id).min? = some m := by
    cases hm : (col.filterMap id).min? with
    | none => exact absurd (List.min?_eq_none_iff.mp hm) h
    | some m => exact ⟨m, rfl⟩
  obtain ⟨M, hM⟩ := hmax
  obtain ⟨m, hm⟩ := hmin
  have hMmem : M ∈ col.filterMap id := List.max?_mem max_choice hM
  have hmmem : m ∈ col.filterMap id := List.min?_mem min_choice hm
  have hle : m ≤ M :=
    (List.max?_le_iff (fun a b c => max_le_iff) hM).mp (le_refl M) m hmmem
  have hMcol : some M ∈ col := by
    rcases List.mem_filterMap.mp hMmem with ⟨a, ha, hid⟩
    cases a with
    | none => simp at hid
    | some v => simp at hid; subst hid; exact ha
  have hmcol : some m ∈ col := by
    rcases List.mem_filterMap.mp hmmem with ⟨a, ha, hid⟩
    cases a with
    | none => simp at hid
    | some v => simp at hid; subst hid; exact ha
  exact ⟨M, m, by simp [display_metrics, seriesMax, seriesMin, hM, hm], hle, hMcol, hmcol⟩

/-- C5 witness: on the column `[3, NaN, 1]` the metrics are max 3 and
min 1, with `3 ≥ 1` and both present in the column. -/
theorem display_metrics_max_min_witness :
    ∃ M m, display_metrics [some (3 : ℚ), none, some 1]
        = { maxVal := some M, minVal := some m } ∧
      m ≤ M ∧ some M ∈ [some (3 : ℚ), none, some 1] ∧
      some m ∈ [some (3 : ℚ), none, some 1] :=
  display_metrics_max_min [some 3, none, some 1] (by decide)

/-! ## Claim C6 -/

theorem maskSelect_map_self (p : α → Bool) (l : List α) :
    maskSelect (l.map p) l = l.filter p := by
  induction l with
  | nil => rfl
  | cons a t ih =>
    simp only [List.map_cons, maskSelect, List.zip_cons_cons, List.filter_cons] at *
    cases hp : p a with
    | true => simp [hp, ih]
    | false => simp [hp, ih]

/-- C6: the day filter yields exactly the subsequence of the frame
whose `time` cells have the selected calendar date: the filtered
`time` column is the order-preserving filter of the original (hence a
sublist), and every other column is selected by that same row mask, so
whole records are kept or dropped together. -/
theorem filterFrameByDate_spec (f : ForecastFrame) (d : Int) :
    (filterFrameByDate f d).time = f.time.filter (fun t => timeDateEq t d) ∧
    List.Sublist (filterFrameByDate f d).time f.time ∧
    (filterFrameByDate f d).temperature
      = maskSelect (f.time.map fun t => timeDateEq t d) f.temperature ∧
    (filterFrameByDate f d).felttemperature
      = maskSelect (f.time.map fun t => timeDateEq t d) f.felttemperature ∧
    (filterFrameByDate f d).precipitation
      = maskSelect (f.time.map fun t => timeDateEq t d) f.precipitation ∧
    (filterFrameByDate f d).convective_precipitation
      = maskSelect (f.time.map fun t => timeDateEq t d) f.convective_precipitation ∧
    (filterFrameByDate f d).smooth_temperature
      = maskSelect (f.time.map fun t => timeDateEq t d) f.smooth_temperature ∧
    (filterFrameByDate f d).smooth_felttemperature
      = maskSelect (f.time.map fun t => timeDateEq t d) f.smooth_felttemperature := by
  have htime : (filterFrameByDate f d).time = f.time.filter (fun t => timeDateEq t d) := by
    rw [filterFrameByDate]
    exact maskSelect_map_self _ f.time
  refine ⟨htime, ?_, rfl, rfl, rfl, rfl, rfl, rfl⟩
  rw [htime]
  exact List.filter_sublist f.time

/-! ## Claim C8 -/

/-- C8: for a non-empty list of y columns, `plot_data` with kind
`"line"` draws one labeled series per y column, each plotted against
the same x column, and no bars; with kind `"bar"` it draws only the
first y column as a bar series, and no lines. -/
theorem plot_data_kinds (df : String → List ℚ) (x_col : String) (y_cols : List String)
    (x_label y_label fmt : String) (hne : ¬ y_cols = []) :
    (plot_data df x_col (Sum.inr y_cols) x_label y_label "line" fmt).lineSeries
      = y_cols.map (fun c => { xdata := df x_col, ydata := df c, label := c }) ∧
    (plot_data df x_col (Sum.inr y_cols) x_label y_label "line" fmt).barSeries = [] ∧
    (plot_data df x_col (Sum.inr y_cols) x_label y_label "bar" fmt).barSeries
      = [{ xdata := df x_col, ydata := df (y_cols.head hne), label := y_cols.head hne }] ∧
    (plot_data df x_col (Sum.inr y_cols) x_label y_label "bar" fmt).lineSeries = [] := by
  match y_cols, hne with
  | c :: rest, _ =>
    refine ⟨?_, ?_, ?_, ?_⟩ <;> simp [plot_data]

/-- C8 witness: with y columns temperature and felttemperature, the
line chart draws both series against the x column and the bar chart
draws only the temperature series. -/
theorem plot_data_kinds_witness :
    (plot_data dfConst "time" (Sum.inr ["temperature", "felttemperature"])
        "X" "Y" "line" "fmt").lineSeries
      = [{ xdata := dfConst "time", ydata := dfConst "temperature", label := "temperature" },
         { xdata := dfConst "time", ydata := dfConst "felttemperature",
           label := "felttemperature" }] ∧
    (plot_data dfConst "time" (Sum.inr ["temperature", "felttemperature"])
        "X" "Y" "bar" "fmt").barSeries
      = [{ xdata := dfConst "time", ydata := dfConst "temperature", label := "temperature" }] := by
  have h := plot_data_kinds dfConst "time" ["temperature", "felttemperature"]
    "X" "Y" "fmt" (by decide)
  exact ⟨h.1, h.2.2.1⟩

/-! ## Claim C10 -/

/-- C10: calling `plot_data` with a bare string as the y columns
behaves identically to calling it with the one-element list of that
string: the string is normalized to a singleton list before any
plotting. -/
theorem plot_data_string_y_cols (df : String → List ℚ) (x_col s x_label y_label : String)
    (graph_type fmt : String) :
    plot_data df x_col (Sum.inl s) x_label y_label graph_type fmt
      = plot_data df x_col (Sum.inr [s]) x_label y_label graph_type fmt := rfl

end Telemetry
